import Mathlib

/-!
Shallow embedding of `src/app.py`, a single-script Streamlit form that
collects eleven inputs, assembles them into a fixed-order feature list,
invokes a pickled decision-tree classifier on the single-row batch and
renders the predicted label together with an echo table of the inputs.

Python integers are modelled as `Int`.  The two coordinate inputs are
Python floats, but the script never performs floating-point arithmetic on
them: they are only bounded by the widget and placed into the feature
list, so they are modelled as `ℚ`.
-/

namespace App

/-- A scalar as it appears in the assembled `features` list of `app.py`
line 90: the list mixes integers (tower id, signal strength, counts,
slider values, weekend flag) with the two floating-point coordinates. -/
inductive Value where
  | int (i : Int)
  | real (q : ℚ)
deriving DecidableEq, Repr

/-- The eleven sidebar inputs of `app.py` lines 50-84, before the weekend
radio choice is converted to a number.  `weekend_choice` is the raw string
returned by the radio widget. -/
structure Inputs where
  tower_id : Int
  latitude : ℚ
  longitude : ℚ
  signal_strength : Int
  male_count : Int
  female_count : Int
  crowd_density : Int
  hour : Int
  day_of_week : Int
  month : Int
  weekend_choice : String
deriving Repr

/-- `st.sidebar.number_input("Tower ID", min_value=1, step=1)`: the widget
accepts exactly the integers that are at least 1 (no upper bound). -/
abbrev towerIdAccepts (n : Int) : Prop := 1 ≤ n

/-- `number_input("Latitude", min_value=-90.0, max_value=90.0)`. -/
abbrev latitudeAccepts (x : ℚ) : Prop := -90 ≤ x ∧ x ≤ 90

/-- `number_input("Longitude", min_value=-180.0, max_value=180.0)`. -/
abbrev longitudeAccepts (x : ℚ) : Prop := -180 ≤ x ∧ x ≤ 180

/-- `number_input("Signal Strength (dBm)", min_value=-120, max_value=0)`. -/
abbrev signalStrengthAccepts (n : Int) : Prop := -120 ≤ n ∧ n ≤ 0

/-- `number_input("Male Count", min_value=0, step=1)`. -/
abbrev maleCountAccepts (n : Int) : Prop := 0 ≤ n

/-- `number_input("Female Count", min_value=0, step=1)`. -/
abbrev femaleCountAccepts (n : Int) : Prop := 0 ≤ n

/-- `number_input("Crowd Density (people/m²)", min_value=0, step=1)`. -/
abbrev crowdDensityAccepts (n : Int) : Prop := 0 ≤ n

/-- `st.sidebar.slider("Hour", 0, 23)`. -/
abbrev hourAccepts (n : Int) : Prop := 0 ≤ n ∧ n ≤ 23

/-- `st.sidebar.slider("Day of Week", 0, 6)`. -/
abbrev dayOfWeekAccepts (n : Int) : Prop := 0 ≤ n ∧ n ≤ 6

/-- `st.sidebar.slider("Month", 1, 12)`. -/
abbrev monthAccepts (n : Int) : Prop := 1 ≤ n ∧ n ≤ 12

/-- `st.sidebar.radio("Is Weekend?", ("Yes", "No"))`: the widget offers
exactly these two choices. -/
abbrev weekendChoiceAccepts (c : String) : Prop := c = "Yes" ∨ c = "No"

/-- All eleven widgets accept their value (`app.py` lines 50-84). -/
abbrev ValidInputs (inp : Inputs) : Prop :=
  towerIdAccepts inp.tower_id ∧ latitudeAccepts inp.latitude ∧
  longitudeAccepts inp.longitude ∧ signalStrengthAccepts inp.signal_strength ∧
  maleCountAccepts inp.male_count ∧ femaleCountAccepts inp.female_count ∧
  crowdDensityAccepts inp.crowd_density ∧ hourAccepts inp.hour ∧
  dayOfWeekAccepts inp.day_of_week ∧ monthAccepts inp.month ∧
  weekendChoiceAccepts inp.weekend_choice

/-- `is_weekend = 1 if is_weekend == "Yes" else 0` (`app.py` line 87). -/
def is_weekendOf (choice : String) : Int :=
  if choice = "Yes" then 1 else 0

/-- `features = [tower_id, latitude, longitude, signal_strength, male_count,
female_count, crowd_density, hour, day_of_week, month, is_weekend]`
(`app.py` line 90). -/
def features (inp : Inputs) : List Value :=
  [.int inp.tower_id, .real inp.latitude, .real inp.longitude,
   .int inp.signal_strength, .int inp.male_count, .int inp.female_count,
   .int inp.crowd_density, .int inp.hour, .int inp.day_of_week,
   .int inp.month, .int (is_weekendOf inp.weekend_choice)]

/-- The loaded classifier handle: its one operation, `predict`, maps a
batch of feature rows either to a list of labels or to a raised error. -/
structure Model where
  predict : List (List Value) → Except String (List String)

/-- Modelled from the spec: the trained artifact `decision_tree_model.pkl`
is not part of src/ (it is an opaque pickled decision tree).  Per the spec
the inference interface takes a collection of rows, rejects an assembled
vector whose feature count mismatches the training-time count, and
otherwise returns exactly one label per row. -/
def trainedModel (nFeatures : Nat) (classify : List Value → String) : Model :=
  ⟨fun rows =>
    if rows.all (fun r => r.length == nFeatures) then .ok (rows.map classify)
    else .error "feature-count mismatch"⟩

/-- The stubbed model of the spec's testable properties: it returns the
label "High Risk" for every vector of every batch and never raises. -/
def stubModel : Model :=
  ⟨fun rows => .ok (rows.map (fun _ => "High Risk"))⟩

/-- `make_prediction` (`app.py` lines 15-19): wrap the feature list as a
single-row batch and call the model's predict. -/
def make_prediction (m : Model) (fs : List Value) : Except String (List String) :=
  m.predict [fs]

/-- The column labels of the echoed `pd.DataFrame` (`app.py` lines
103-107). -/
def columnLabels : List String :=
  ["Tower ID", "Latitude", "Longitude", "Signal Strength (dBm)",
   "Male Count", "Female Count", "Crowd Density (people/m²)",
   "Hour", "Day of Week", "Month", "Is Weekend?"]

/-- What the button handler renders on success: the `st.success` message
and the echoed single-row table. -/
structure Rendered where
  message : String
  tableColumns : List String
  tableRow : List Value
deriving DecidableEq, Repr

/-- The "Make Prediction" button handler (`app.py` lines 93-108): call
`make_prediction` on the assembled features; any raised error propagates
uncaught (there is no try/except), which Streamlit surfaces to the user
as a visible error with nothing else rendered; on success render
`"Prediction: " ++ prediction[0]` and echo the features under
`columnLabels`. -/
def clickHandler (m : Model) (inp : Inputs) : Except String Rendered :=
  match make_prediction m (features inp) with
  | .error e => .error e
  | .ok preds =>
    match preds with
    | [] => .error "IndexError: list index out of range"
    | p :: _ =>
      .ok ⟨"Prediction: " ++ p, columnLabels, features inp⟩

/-- The process-wide state after startup: the loaded model handle and the
result area.  The script holds `model` as ambient read-only state. -/
structure AppState where
  model : Model
  rendered : Option (Except String Rendered)

/-- One user-triggered prediction: read the loaded model handle, run the
button handler, replace only the rendered result area. -/
def step (s : AppState) (inp : Inputs) : AppState :=
  ⟨s.model, some (clickHandler s.model inp)⟩

/-- The hard-coded artifact path of `app.py` line 9. -/
def modelPath : String := "decision_tree_model.pkl"

/-- Result of running the script top to bottom: either the module-level
load raised and the process died before any widget was served, or the app
is running with the loaded model. -/
inductive StartupResult where
  | fatal (msg : String)
  | running (s : AppState)

/-- Startup (`app.py` lines 9-10): open `modelPath` and unpickle it, with
no exception handler.  Modelled from the spec: the behaviour of
`open`/`pickle.load` is Python-runtime behaviour, not code under src/;
per the spec a missing or undeserializable artifact raises fatally with a
message stating the unreadable path.  `fs` maps a path to `none` when the
file is absent, and otherwise to the result of deserializing its
contents. -/
def startup (fs : String → Option (Except String Model)) : StartupResult :=
  match fs modelPath with
  | none => .fatal ("No such file or directory: " ++ modelPath)
  | some (.error e) => .fatal (e ++ " while loading " ++ modelPath)
  | some (.ok m) => .running ⟨m, none⟩

/-- The boundary input set of the spec's testable properties: latitude
-90.0, longitude 180.0, hour 0, day of week 6, month 12, weekend "Yes";
the remaining fields sit at their own widget boundaries. -/
def boundaryInput : Inputs :=
  ⟨1, -90, 180, -120, 0, 0, 0, 0, 6, 12, "Yes"⟩

/-- C1: for every prediction, the assembled feature list has exactly
eleven entries, in the fixed order [tower_id, latitude, longitude,
signal_strength, male_count, female_count, crowd_density, hour,
day_of_week, month, is_weekend]. -/
theorem features_fixed_order (inp : Inputs) :
    (features inp).length = 11 ∧
    (features inp).get? 0 = some (.int inp.tower_id) ∧
    (features inp).get? 1 = some (.real inp.latitude) ∧
    (features inp).get? 2 = some (.real inp.longitude) ∧
    (features inp).get? 3 = some (.int inp.signal_strength) ∧
    (features inp).get? 4 = some (.int inp.male_count) ∧
    (features inp).get? 5 = some (.int inp.female_count) ∧
    (features inp).get? 6 = some (.int inp.crowd_density) ∧
    (features inp).get? 7 = some (.int inp.hour) ∧
    (features inp).get? 8 = some (.int inp.day_of_week) ∧
    (features inp).get? 9 = some (.int inp.month) ∧
    (features inp).get? 10 = some (.int (is_weekendOf inp.weekend_choice)) :=
  ⟨rfl, rfl, rfl, rfl, rfl, rfl, rfl, rfl, rfl, rfl, rfl, rfl⟩

/-- C2: under the stubbed model that labels every vector "High Risk",
triggering prediction on any input set renders exactly the message
"Prediction: High Risk" and echoes a table whose eleven columns match the
eleven features in input order. -/
theorem stub_model_rendering (inp : Inputs) :
    clickHandler stubModel inp =
      .ok ⟨"Prediction: High Risk", columnLabels, features inp⟩ ∧
    columnLabels.length = 11 ∧ (features inp).length = 11 :=
  ⟨rfl, rfl, rfl⟩

/-- C3: the weekend conversion maps "Yes" to 1 and "No" to 0, and takes
no value other than 0 or 1 on any radio choice whatsoever. -/
theorem weekend_flag_mapping :
    is_weekendOf "Yes" = 1 ∧ is_weekendOf "No" = 0 ∧
    ∀ c : String, is_weekendOf c = 0 ∨ is_weekendOf c = 1 := by
  refine ⟨rfl, rfl, fun c => ?_⟩
  unfold is_weekendOf
  split
  · exact Or.inr rfl
  · exact Or.inl rfl

/-- C4: for every input assignment (in particular, every one inside the
declared numeric domains), assembling the feature list and invoking the
trained model — which expects eleven features per row — returns exactly
one label and never raises for feature-count or order reasons. -/
theorem valid_inputs_one_label (classify : List Value → String) (inp : Inputs) :
    make_prediction (trainedModel 11 classify) (features inp) =
      .ok [classify (features inp)] :=
  rfl

/-- C5: if the artifact file is missing or undeserializable at startup,
the script's unguarded module-level load is fatal — the result is never a
running app — and the failure message states the unreadable path. -/
theorem load_failure_fatal (fs : String → Option (Except String Model))
    (h : fs modelPath = none ∨ ∃ e, fs modelPath = some (.error e)) :
    ∃ pre, startup fs = .fatal (pre ++ modelPath) := by
  rcases h with h | ⟨e, h⟩
  · exact ⟨"No such file or directory: ", by unfold startup; rw [h]⟩
  · exact ⟨e ++ " while loading ", by unfold startup; rw [h]⟩

/-- Witness for C5 at a file system with no files at all. -/
theorem load_failure_fatal_witness :
    ∃ pre, startup (fun _ => none) = .fatal (pre ++ modelPath) :=
  load_failure_fatal (fun _ => none) (Or.inl rfl)

/-- C6: when the inference call raises, the button handler surfaces that
very error message — no recovery, no retry, no alternative rendering. -/
theorem inference_failure_surfaced (m : Model) (inp : Inputs) (e : String)
    (h : m.predict [features inp] = .error e) :
    clickHandler m inp = .error e := by
  unfold clickHandler make_prediction
  rw [h]

/-- Witness for C6: a model trained on ten features rejects the app's
eleven-feature vector and the handler surfaces the mismatch error. -/
theorem inference_failure_surfaced_witness :
    clickHandler (trainedModel 10 (fun _ => "Low Risk")) boundaryInput =
      .error "feature-count mismatch" :=
  inference_failure_surfaced (trainedModel 10 (fun _ => "Low Risk"))
    boundaryInput "feature-count mismatch" rfl

/-- C7: the signal-strength widget accepts both -120 and 0, rejects both
-121 and 1, and every accepted value lies in [-120, 0]. -/
theorem signal_strength_bounds :
    signalStrengthAccepts (-120) ∧ signalStrengthAccepts 0 ∧
    ¬ signalStrengthAccepts (-121) ∧ ¬ signalStrengthAccepts 1 ∧
    ∀ n : Int, signalStrengthAccepts n → -120 ≤ n ∧ n ≤ 0 := by
  refine ⟨by decide, by decide, by decide, by decide, fun n h => h⟩

/-- Witness for C7 at the accepted interior value -60. -/
theorem signal_strength_bounds_witness : -120 ≤ (-60 : Int) ∧ (-60 : Int) ≤ 0 :=
  signal_strength_bounds.2.2.2.2 (-60) (by decide)

/-- C8: at the boundary input (latitude -90.0, longitude 180.0, hour 0,
day of week 6, month 12, weekend "Yes", remaining fields at their own
bounds) every widget accepts its value and the assembled vector's last
element equals 1. -/
theorem boundary_input_accepted :
    ValidInputs boundaryInput ∧
    (features boundaryInput).getLast? = some (.int 1) := by
  constructor
  · exact ⟨by decide, ⟨by norm_num [boundaryInput], by norm_num [boundaryInput]⟩,
      ⟨by norm_num [boundaryInput], by norm_num [boundaryInput]⟩,
      by decide, by decide, by decide, by decide, by decide, by decide,
      by decide, Or.inl rfl⟩
  · rfl

/-- C9: the model handle is loaded once and never mutated, reloaded or
written back: every prediction step reads the same loaded handle, leaves
it unchanged, and only replaces the rendered result area; hence after any
sequence of predictions the handle is still the one loaded at startup. -/
theorem model_never_mutated (s : AppState) (inps : List Inputs) :
    (inps.foldl step s).model = s.model ∧
    ∀ inp, (step s inp).model = s.model ∧
      (step s inp).rendered = some (clickHandler s.model inp) := by
  constructor
  · induction inps generalizing s with
    | nil => rfl
    | cons a l ih => exact (ih (step s a)).trans rfl
  · exact fun inp => ⟨rfl, rfl⟩

/-- C10: the Tower ID widget enforces a minimum of 1: it rejects 0 and
every negative identifier, and whenever it accepts the entered value the
assembled vector's first element is that value, a positive integer. -/
theorem tower_id_positive :
    ¬ towerIdAccepts 0 ∧ (∀ n : Int, n < 0 → ¬ towerIdAccepts n) ∧
    ∀ inp : Inputs, towerIdAccepts inp.tower_id →
      (features inp).get? 0 = some (.int inp.tower_id) ∧ 1 ≤ inp.tower_id := by
  refine ⟨by decide, fun n hn h => absurd (h.trans_lt hn) (by decide), ?_⟩
  exact fun inp h => ⟨rfl, h⟩

/-- Witness for C10: -7 is rejected, and for an accepting input set the
first feature is the positive tower id. -/
theorem tower_id_positive_witness :
    ¬ towerIdAccepts (-7) ∧
    ((features boundaryInput).get? 0 = some (.int 1) ∧
      (1 : Int) ≤ boundaryInput.tower_id) :=
  ⟨tower_id_positive.2.1 (-7) (by decide),
   tower_id_positive.2.2 boundaryInput (by decide)⟩

end App
